import Mathlib

/-!
Shallow embedding of the rubber-docker levels `00_fork_exec/rd.py` and
`04_overlay/rd.py`.  Kernel-state–mutating calls (`linux.mount`,
`linux.unshare`, `linux.pivot_root`, `linux.umount2`, `os.execvp`,
`os.symlink`, `os.mknod`, `tarfile.extractall`, `print`) are recorded as
events in a trace; pure path arithmetic (`os.path.join`, `os.extsep.join`)
is translated to string functions; the on-disk state observed by the
existence checks (`os.path.exists`) is a `World` carrying the set of
existing paths, the tar archives by path, and the executables resolvable
by `execvp`.
-/

namespace RubberDocker

/-- Linux mount/namespace flag constants, as exposed by the `linux` C
extension module of the repository (standard `<linux/fs.h>` and
`<sched.h>` values). -/
def CLONE_NEWNS : Nat := 0x00020000

/-- Mount flag: disallow access to device special files. -/
def MS_NODEV : Nat := 4

/-- Mount flag: ignore suid and sgid bits. -/
def MS_NOSUID : Nat := 2

/-- Mount flag: always update the last access time. -/
def MS_STRICTATIME : Nat := 0x01000000

/-- Mount propagation flag: make this mount private. -/
def MS_PRIVATE : Nat := 1 <<< 18

/-- Mount flag: apply recursively. -/
def MS_REC : Nat := 16384

/-- Umount2 flag: lazy / detach unmount. -/
def MNT_DETACH : Nat := 2

/-- File type bits for a character device (`stat.S_IFCHR`). -/
def S_IFCHR : Nat := 0o020000

/-- The glibc encoding of a (major, minor) pair into a device number,
as computed by `os.makedev`. -/
def os_makedev (major minor : Nat) : Nat :=
  ((major % 4096) <<< 8) ||| (minor % 256) |||
    ((major / 4096) <<< 32) ||| ((minor / 256) <<< 12)

/-- Entry types appearing in a tar archive (`tarfile` member types). -/
inductive TarType where
  | reg
  | dir
  | sym
  | lnk
  | chr
  | blk
  | fifo
deriving DecidableEq, Repr

/-- A member of a tar archive: a name and an entry type. -/
structure TarMember where
  name : String
  type : TarType
deriving DecidableEq, Repr

/-- One observable side effect: a kernel call, a filesystem write or a
line printed.  Constructor arguments mirror the Python call arguments;
`Option String` stands for arguments that may be Python `None`. -/
inductive Event where
  | unshare (flags : Nat)
  | mount (source : Option String) (target : String) (fstype : Option String)
      (flags : Nat) (data : Option String)
  | makedirs (path : String)
  | extractall (path : String) (members : List TarMember)
  | symlink (src : String) (dst : String)
  | mknod (path : String) (mode : Nat) (device : Nat)
  | pivot_root (new_root : String) (put_old : String)
  | chdir (path : String)
  | umount2 (target : String) (flags : Nat)
  | rmdir (path : String)
  | execvp (file : String) (args : List String)
  | print (line : String)
  | printExcStderr (msg : String)
deriving DecidableEq, Repr

/-- The on-disk state the code observes: which paths exist, which tar
archives sit at which paths, and which program names `execvp` resolves. -/
structure World where
  existing : List String
  archives : List (String × List TarMember)
  executables : List String
deriving DecidableEq, Repr

/-- Translation of `os.path.exists`. -/
def pathExists (w : World) (p : String) : Bool :=
  decide (p ∈ w.existing)

/-- Record a path (and, abstractly, its parents) as existing, as
`os.makedirs` does. -/
def addPath (w : World) (p : String) : World :=
  { w with existing := p :: w.existing }

/-- Translation of `os.path.join` for the two-component calls of this
code (the second component is never absolute here). -/
def osPathJoin (a b : String) : String :=
  a ++ "/" ++ b

/-- Translation of `_get_image_path` of `04_overlay/rd.py`:
`os.path.join(image_dir, os.extsep.join([image_name, image_suffix]))`
with the default suffix `tar`. -/
def _get_image_path (image_name image_dir : String) : String :=
  osPathJoin image_dir (image_name ++ "." ++ "tar")

/-- Translation of `_get_container_path` of `04_overlay/rd.py`:
`os.path.join(container_dir, container_id, *subdir_names)`. -/
def _get_container_path (container_id container_dir : String)
    (subdir_names : List String) : String :=
  subdir_names.foldl osPathJoin (osPathJoin container_dir container_id)

/-- Membership test used by the tar member filter of
`create_container_root`: `m.type not in (tarfile.CHRTYPE, tarfile.BLKTYPE)`. -/
def keepMember (m : TarMember) : Bool :=
  ¬ (m.type = TarType.chr ∨ m.type = TarType.blk)

/-- The `if not os.path.exists(p): os.makedirs(p)` idiom used throughout
`create_container_root`: the updated world together with the events this
step performs. -/
def ensureDir (w : World) (p : String) : World × List Event :=
  if pathExists w p then (w, [])
  else (addPath w p, [Event.makedirs p])

/-- Translation of `create_container_root` of `04_overlay/rd.py`.
Returns the final world, the event trace in program order and either the
returned merged mount point or the message of the exception raised
(`AssertionError` when the image archive is missing, an `IOError` when
`tarfile.open` cannot read the archive). -/
def create_container_root (image_name image_dir container_id container_dir : String)
    (w : World) : World × List Event × Except String String :=
  let image_path := _get_image_path image_name image_dir
  let image_root := osPathJoin (osPathJoin image_dir image_name) "rootfs"
  let overlay_path := osPathJoin container_dir "overlay"
  let s0 := ensureDir w overlay_path
  if ¬ pathExists s0.1 image_path then
    (s0.1, s0.2, Except.error ("unable to locate image " ++ image_name))
  else
    match (if pathExists s0.1 image_root then Except.ok (s0.1, s0.2)
           else
             match s0.1.archives.lookup image_path with
             | none => Except.error "tarfile.open failed"
             | some members =>
                 Except.ok (addPath s0.1 image_root,
                   s0.2 ++ [Event.makedirs image_root,
                            Event.extractall image_root
                              (members.filter keepMember)])) with
    | Except.error e => (s0.1, s0.2, Except.error e)
    | Except.ok (w1, tr1) =>
      let upper_path := _get_container_path container_id overlay_path ["upper"]
      let work_root := _get_container_path container_id overlay_path ["work"]
      let merged := _get_container_path container_id overlay_path ["merged"]
      let s2 := ensureDir w1 upper_path
      let s3 := ensureDir s2.1 work_root
      let s4 := ensureDir s3.1 merged
      let optsStr := "lowerdir=" ++ image_root ++ ",upperdir=" ++ upper_path
        ++ ",workdir=" ++ work_root
      (s4.1,
       tr1 ++ s2.2 ++ s3.2 ++ s4.2
         ++ [Event.print optsStr,
             Event.mount (some "overlay") merged (some "overlayfs")
               MS_NODEV (some optsStr)],
       Except.ok merged)

/-- The device table of `makedev` in `04_overlay/rd.py`, in source order:
name, type bits, major, minor. -/
def DEVICES : List (String × Nat × Nat × Nat) :=
  [("null", S_IFCHR, 1, 3), ("zero", S_IFCHR, 1, 5),
   ("random", S_IFCHR, 1, 8), ("urandom", S_IFCHR, 1, 9),
   ("console", S_IFCHR, 136, 1), ("tty", S_IFCHR, 5, 0),
   ("full", S_IFCHR, 1, 7)]

/-- Translation of `makedev` of `04_overlay/rd.py`: the symlinks for
stdin/stdout/stderr and fd, then one `os.mknod` per entry of `DEVICES`
with mode `0o666 | dev_type` and device number `os.makedev(major, minor)`.
(The Python 2 dict iteration order of `DEVICES.iteritems()` is
unspecified; the trace here lists the nodes in source order, and the
claims proved below do not depend on the order among the seven nodes.) -/
def makedev (dev_path : String) : List Event :=
  (([0, 1, 2].zip ["stdin", "stdout", "stderr"]).map fun p =>
      Event.symlink ("/proc/self/fd/" ++ toString p.1) (osPathJoin dev_path p.2))
    ++ [Event.symlink "/proc/self/fd" (osPathJoin dev_path "fd")]
    ++ DEVICES.map fun d =>
        Event.mknod (osPathJoin dev_path d.1) (0o666 ||| d.2.1)
          (os_makedev d.2.2.1 d.2.2.2)

/-- Translation of `_create_mounts` of `04_overlay/rd.py`: mount proc,
sysfs and a tmpfs dev under `new_root`; create and mount `dev/pts` only
when that directory does not already exist; then populate dev via
`makedev`. -/
def _create_mounts (new_root : String) (w : World) : World × List Event :=
  let tr0 :=
    [Event.mount (some "proc") (osPathJoin new_root "proc") (some "proc") 0 (some ""),
     Event.mount (some "sysfs") (osPathJoin new_root "sys") (some "sysfs") 0 (some ""),
     Event.mount (some "tmpfs") (osPathJoin new_root "dev") (some "tmpfs")
       (MS_NOSUID ||| MS_STRICTATIME) (some "mode=755")]
  let devpts_path := osPathJoin (osPathJoin new_root "dev") "pts"
  let st1 : World × List Event :=
    if pathExists w devpts_path then (w, tr0)
    else (addPath w devpts_path,
      tr0 ++ [Event.makedirs devpts_path,
              Event.mount (some "devpts") devpts_path (some "devpts") 0 (some "")])
  (st1.1, st1.2 ++ makedev (osPathJoin new_root "dev"))

/-- Translation of `contain` of `04_overlay/rd.py`.  Returns the final
world, the event trace in program order and either `()` (the process
image was replaced by `execvp`, the last event of the trace) or the
message of the exception raised before the exec (`os.makedirs` on an
existing `old_root`, a failure inside `create_container_root`, or
`execvp` itself failing to resolve the command). -/
def contain (command : List String)
    (image_name image_dir container_id container_dir : String)
    (w : World) : World × List Event × Except String Unit :=
  let tr0 := [Event.unshare CLONE_NEWNS,
              Event.mount none "/" none (MS_PRIVATE ||| MS_REC) none]
  match create_container_root image_name image_dir container_id container_dir w with
  | (w1, tr1, Except.error e) => (w1, tr0 ++ tr1, Except.error e)
  | (w1, tr1, Except.ok new_root) =>
    let tr2 := tr0 ++ tr1
      ++ [Event.print ("Created a new root fs for our container: " ++ new_root)]
    let st3 := _create_mounts new_root w1
    let old_root := osPathJoin new_root "old_root"
    if pathExists st3.1 old_root then
      (st3.1, tr2 ++ st3.2, Except.error "os.makedirs: file exists")
    else
      let w4 := addPath st3.1 old_root
      let tr4 := tr2 ++ st3.2
        ++ [Event.makedirs old_root,
            Event.pivot_root new_root old_root,
            Event.chdir "/",
            Event.umount2 "/old_root" MNT_DETACH,
            Event.rmdir "/old_root"]
      match command with
      | [] => (w4, tr4, Except.error "IndexError: command is empty")
      | file :: _ =>
        if w4.executables.contains file then
          (w4, tr4 ++ [Event.execvp file command], Except.ok ())
        else
          (w4, tr4, Except.error ("execvp: " ++ file ++ " not found"))

/-- Outcome of the forked child of `run`: either the process image was
replaced by the exec'd command, or the child called `os._exit(status)` —
an immediate process exit that runs no inherited cleanup handlers. -/
inductive ChildOutcome where
  | execed (w : World) (events : List Event)
  | exitedImmediately (status : Nat) (w : World) (events : List Event)
deriving DecidableEq, Repr

/-- Translation of the child branch of `run` in `04_overlay/rd.py`
(`pid == 0`): try `contain`, and on any exception print the traceback to
standard error and `os._exit(1)`. -/
def run_child (command : List String)
    (image_name image_dir container_id container_dir : String)
    (w : World) : ChildOutcome :=
  match contain command image_name image_dir container_id container_dir w with
  | (w1, tr, Except.ok _) => ChildOutcome.execed w1 tr
  | (w1, tr, Except.error e) =>
      ChildOutcome.exitedImmediately 1 w1 (tr ++ [Event.printExcStderr e])

/-- Translation of the parent branch of `run` in `04_overlay/rd.py`:
after the fork the parent goes straight to `os.waitpid(pid, 0)` and then
prints the pid with the raw wait status.  `pid` is the fork return value
and `status` the raw status delivered by `waitpid`. -/
def run_parent_prints (pid status : Nat) : List Event :=
  [Event.print (toString pid ++ " exited with status " ++ toString status)]

/-- Translation of the parent branch of `run` in `00_fork_exec/rd.py`:
the parent prints the forked pid, then waits and prints the pid with the
raw wait status. -/
def run00_parent_prints (pid status : Nat) : List Event :=
  [Event.print (toString pid),
   Event.print (toString pid ++ " exited with status " ++ toString status)]

/-- Does `p` lie strictly below directory `dir`, i.e. does `dir ++ "/"`
prefix `p`? -/
def isUnder (dir p : String) : Bool :=
  (dir ++ "/").data.isPrefixOf p.data

/-- The directory entries a trace creates below `dir`: targets of
`symlink`, paths of `mknod` and paths of `makedirs` lying under `dir`.
Mount events create no directory entry. -/
def createdUnder (dir : String) (evs : List Event) : List String :=
  evs.filterMap fun e =>
    match e with
    | Event.symlink _ dst => if isUnder dir dst then some dst else none
    | Event.mknod p _ _ => if isUnder dir p then some p else none
    | Event.makedirs p => if isUnder dir p then some p else none
    | _ => none

/-- The overlay mount options string built inline by
`create_container_root`, for use in theorem statements. -/
def overlayOptions (image_name image_dir container_id container_dir : String) : String :=
  "lowerdir=" ++ osPathJoin (osPathJoin image_dir image_name) "rootfs"
    ++ ",upperdir="
    ++ _get_container_path container_id (osPathJoin container_dir "overlay") ["upper"]
    ++ ",workdir="
    ++ _get_container_path container_id (osPathJoin container_dir "overlay") ["work"]

/-- A world holding one image archive (with one block- and one
character-device entry) and one resolvable executable, used to witness
the theorems above at concrete inputs. -/
def sampleWorld : World :=
  { existing := ["/img/ubuntu.tar"],
    archives := [("/img/ubuntu.tar",
      [⟨"bin", TarType.dir⟩, ⟨"bin/sh", TarType.reg⟩,
       ⟨"dev/sda", TarType.blk⟩, ⟨"dev/tty0", TarType.chr⟩])],
    executables := ["/bin/true"] }

/-- A world with no paths, archives or executables. -/
def emptyWorld : World :=
  { existing := [], archives := [], executables := [] }

lemma isUnder_join (dir x : String) : isUnder dir (osPathJoin dir x) = true := by
  simp [isUnder, osPathJoin, String.data_append, List.isPrefixOf_iff_prefix]

/-- C4: `makedev` creates under `root/dev` the stdin/stdout/stderr and fd
symlinks to the proc fd entries, and seven character-device nodes with
mode 0666 and the exact (major, minor) pairs null=(1,3), zero=(1,5),
random=(1,8), urandom=(1,9), console=(136,1), tty=(5,0), full=(1,7). -/
theorem makedev_standard_devices (dev_path : String) :
    makedev dev_path =
      [Event.symlink "/proc/self/fd/0" (dev_path ++ "/stdin"),
       Event.symlink "/proc/self/fd/1" (dev_path ++ "/stdout"),
       Event.symlink "/proc/self/fd/2" (dev_path ++ "/stderr"),
       Event.symlink "/proc/self/fd" (dev_path ++ "/fd"),
       Event.mknod (dev_path ++ "/null") (0o666 ||| S_IFCHR) (os_makedev 1 3),
       Event.mknod (dev_path ++ "/zero") (0o666 ||| S_IFCHR) (os_makedev 1 5),
       Event.mknod (dev_path ++ "/random") (0o666 ||| S_IFCHR) (os_makedev 1 8),
       Event.mknod (dev_path ++ "/urandom") (0o666 ||| S_IFCHR) (os_makedev 1 9),
       Event.mknod (dev_path ++ "/console") (0o666 ||| S_IFCHR) (os_makedev 136 1),
       Event.mknod (dev_path ++ "/tty") (0o666 ||| S_IFCHR) (os_makedev 5 0),
       Event.mknod (dev_path ++ "/full") (0o666 ||| S_IFCHR) (os_makedev 1 7)] := by
  simp [makedev, DEVICES, osPathJoin, String.append_assoc]
  refine ⟨?_, ?_, ?_⟩ <;> rfl

/-- C6 counterexample: the `04_overlay` supervisor does not print the
forked pid on its own line after the fork (shown at pid 7, status 0):
no print event of just the pid occurs among the parent's prints. -/
theorem run_parent_prints_no_pid_line :
    Event.print (toString 7) ∉ run_parent_prints 7 0 := by
  decide

/-- C6 amended: the `00_fork_exec` parent prints the forked pid and then
the pid with the raw wait status, while the `04_overlay` parent prints
only the pid with the raw wait status after the wait. -/
theorem run_parent_prints_spec (pid status : Nat) :
    run00_parent_prints pid status =
      Event.print (toString pid) :: run_parent_prints pid status ∧
    run_parent_prints pid status =
      [Event.print (toString pid ++ " exited with status " ++ toString status)] :=
  ⟨rfl, rfl⟩

/-- C7 counterexample: starting from an empty world, the device
population step `_create_mounts` creates twelve (not eight) directory
entries under `root/dev`. -/
theorem create_mounts_entry_count_cex :
    (createdUnder "/r/dev"
      (_create_mounts "/r"
        { existing := [], archives := [], executables := [] }).2).length = 12 ∧
    (createdUnder "/r/dev"
      (_create_mounts "/r"
        { existing := [], archives := [], executables := [] }).2).length ≠ 8 := by
  decide

/-- C10: during root population, the devpts mount at `root/dev/pts` (and
the creation of that directory) happens exactly when `root/dev/pts` did
not already exist; if it exists beforehand, no devpts mount is performed
at all. -/
theorem devpts_mount_iff_absent (new_root : String) (w : World) :
    (Event.mount (some "devpts") (osPathJoin (osPathJoin new_root "dev") "pts")
        (some "devpts") 0 (some "") ∈ (_create_mounts new_root w).2
      ↔ pathExists w (osPathJoin (osPathJoin new_root "dev") "pts") = false) ∧
    (Event.makedirs (osPathJoin (osPathJoin new_root "dev") "pts")
        ∈ (_create_mounts new_root w).2
      ↔ pathExists w (osPathJoin (osPathJoin new_root "dev") "pts") = false) := by
  by_cases h : pathExists w (osPathJoin (osPathJoin new_root "dev") "pts") = true
  · simp [_create_mounts, h, makedev, DEVICES]
  · simp only [Bool.not_eq_true] at h
    simp [_create_mounts, h, makedev, DEVICES]

lemma ensureDir_fst_exists (w : World) (p : String) :
    pathExists (ensureDir w p).1 p = true := by
  unfold ensureDir
  split
  · assumption
  · simp [pathExists, addPath]

lemma ensureDir_mono (w : World) (p q : String)
    (h : pathExists w q = true) : pathExists (ensureDir w p).1 q = true := by
  unfold ensureDir
  split
  · exact h
  · simp_all [pathExists, addPath]

lemma addPath_mono (w : World) (p q : String)
    (h : pathExists w q = true) : pathExists (addPath w p) q = true := by
  simp_all [pathExists, addPath]

lemma addPath_self (w : World) (p : String) :
    pathExists (addPath w p) p = true := by
  simp [pathExists, addPath]

lemma overlayOptions_flat (image_name image_dir container_id container_dir : String) :
    overlayOptions image_name image_dir container_id container_dir =
      "lowerdir=" ++ image_dir ++ "/" ++ image_name ++ "/rootfs,upperdir="
        ++ container_dir ++ "/overlay/" ++ container_id ++ "/upper,workdir="
        ++ container_dir ++ "/overlay/" ++ container_id ++ "/work" := by
  simp [overlayOptions, _get_container_path, osPathJoin, String.append_assoc]

/-- Success facts about `create_container_root`: the returned path is the
merged mount point, the trace ends with the options print and the
overlay mount, and the final world contains every checked path. -/
lemma ccr_ok_facts (image_name image_dir container_id container_dir : String)
    (w w1 : World) (tr1 : List Event) (p : String)
    (h : create_container_root image_name image_dir container_id container_dir w
          = (w1, tr1, Except.ok p)) :
    p = _get_container_path container_id (osPathJoin container_dir "overlay") ["merged"] ∧
    (∃ pre, tr1 = pre ++
      [Event.print (overlayOptions image_name image_dir container_id container_dir),
       Event.mount (some "overlay") p (some "overlayfs") MS_NODEV
         (some (overlayOptions image_name image_dir container_id container_dir))]) ∧
    pathExists w1 (_get_image_path image_name image_dir) = true ∧
    pathExists w1 (osPathJoin container_dir "overlay") = true ∧
    pathExists w1 (osPathJoin (osPathJoin image_dir image_name) "rootfs") = true ∧
    pathExists w1 (_get_container_path container_id (osPathJoin container_dir "overlay") ["upper"]) = true ∧
    pathExists w1 (_get_container_path container_id (osPathJoin container_dir "overlay") ["work"]) = true ∧
    pathExists w1 (_get_container_path container_id (osPathJoin container_dir "overlay") ["merged"]) = true := by
  simp only [create_container_root] at h
  split at h
  · simp at h
  next himg =>
    replace himg : pathExists (ensureDir w (osPathJoin container_dir "overlay")).1
        (_get_image_path image_name image_dir) = true := by
      simpa using himg
    split at h
    · simp at h
    next wa tra heq =>
      obtain ⟨hw1, htr1, hp⟩ : _ ∧ _ ∧ _ := by
        have := h
        simp only [Prod.mk.injEq, Except.ok.injEq] at this
        exact ⟨this.1, this.2.1, this.2.2⟩
      have hov : pathExists wa (osPathJoin container_dir "overlay") = true ∧
          pathExists wa (_get_image_path image_name image_dir) = true ∧
          pathExists wa (osPathJoin (osPathJoin image_dir image_name) "rootfs") = true := by
        split at heq
        next hroot =>
          obtain ⟨h1, h2⟩ : wa = _ ∧ tra = _ := by
            simp only [Except.ok.injEq, Prod.mk.injEq] at heq
            exact ⟨heq.1.symm, heq.2.symm⟩
          subst h1
          exact ⟨ensureDir_fst_exists w _, himg, hroot⟩
        next hroot =>
          split at heq
          · simp at heq
          next ms hms =>
            obtain ⟨h1, h2⟩ : wa = _ ∧ tra = _ := by
              simp only [Except.ok.injEq, Prod.mk.injEq] at heq
              exact ⟨heq.1.symm, heq.2.symm⟩
            subst h1
            exact ⟨addPath_mono _ _ _ (ensureDir_fst_exists w _),
                   addPath_mono _ _ _ himg, addPath_self _ _⟩
      subst hw1 hp
      subst htr1
      refine ⟨rfl,
        ⟨tra ++ (ensureDir wa (_get_container_path container_id
              (osPathJoin container_dir "overlay") ["upper"])).2
            ++ (ensureDir (ensureDir wa (_get_container_path container_id
                  (osPathJoin container_dir "overlay") ["upper"])).1
                (_get_container_path container_id
                  (osPathJoin container_dir "overlay") ["work"])).2
            ++ (ensureDir (ensureDir (ensureDir wa (_get_container_path container_id
                    (osPathJoin container_dir "overlay") ["upper"])).1
                  (_get_container_path container_id
                    (osPathJoin container_dir "overlay") ["work"])).1
                (_get_container_path container_id
                  (osPathJoin container_dir "overlay") ["merged"])).2, ?_⟩,
        ?_, ?_, ?_, ?_, ?_, ?_⟩
      · simp [overlayOptions, List.append_assoc]
      · exact ensureDir_mono _ _ _ (ensureDir_mono _ _ _ (ensureDir_mono _ _ _ hov.2.1))
      · exact ensureDir_mono _ _ _ (ensureDir_mono _ _ _ (ensureDir_mono _ _ _ hov.1))
      · exact ensureDir_mono _ _ _ (ensureDir_mono _ _ _ (ensureDir_mono _ _ _ hov.2.2))
      · exact ensureDir_mono _ _ _ (ensureDir_mono _ _ _ (ensureDir_fst_exists _ _))
      · exact ensureDir_mono _ _ _ (ensureDir_fst_exists _ _)
      · exact ensureDir_fst_exists _ _

lemma ensureDir_of_exists (w : World) (p : String)
    (h : pathExists w p = true) : ensureDir w p = (w, []) := by
  simp [ensureDir, h]

lemma pathExists_addPath_false (w : World) (p q : String)
    (hne : q ≠ p) (h : pathExists w q = false) :
    pathExists (addPath w p) q = false := by
  simp_all [pathExists, addPath]

lemma extractall_not_mem_ensureDir (w : World) (q p : String) (ms : List TarMember) :
    Event.extractall p ms ∉ (ensureDir w q).2 := by
  unfold ensureDir
  split <;> simp

lemma mknod_not_mem_ensureDir (w : World) (q p : String) (mode dev : Nat) :
    Event.mknod p mode dev ∉ (ensureDir w q).2 := by
  unfold ensureDir
  split <;> simp

/-- C2: whenever `create_container_root` reaches the overlay mount, the
mount is invoked on `<containersDir>/overlay/<containerId>/merged`, the
options string is exactly
`lowerdir=<imageRoot>,upperdir=<upperPath>,workdir=<workRoot>` with no
spaces and the keys in that order, and the `MS_NODEV` flag is set. -/
theorem overlay_mount_exact_options
    (image_name image_dir container_id container_dir : String)
    (w w1 : World) (tr1 : List Event) (merged : String)
    (h : create_container_root image_name image_dir container_id container_dir w
          = (w1, tr1, Except.ok merged)) :
    merged = container_dir ++ "/overlay/" ++ container_id ++ "/merged" ∧
    ∃ pre, tr1 = pre ++
      [Event.print ("lowerdir=" ++ image_dir ++ "/" ++ image_name
          ++ "/rootfs,upperdir=" ++ container_dir ++ "/overlay/" ++ container_id
          ++ "/upper,workdir=" ++ container_dir ++ "/overlay/" ++ container_id ++ "/work"),
       Event.mount (some "overlay") merged (some "overlayfs") MS_NODEV
         (some ("lowerdir=" ++ image_dir ++ "/" ++ image_name
          ++ "/rootfs,upperdir=" ++ container_dir ++ "/overlay/" ++ container_id
          ++ "/upper,workdir=" ++ container_dir ++ "/overlay/" ++ container_id ++ "/work"))] := by
  obtain ⟨hp, ⟨pre, htr⟩, -⟩ := ccr_ok_facts _ _ _ _ _ _ _ _ h
  constructor
  · rw [hp]
    simp [_get_container_path, osPathJoin, String.append_assoc]
  · exact ⟨pre, by rw [htr, overlayOptions_flat]⟩

/-- C8: image materialization is idempotent.  After any successful call
of `create_container_root`, a repeated call on the resulting world
performs no extraction and no directory creation at all (its trace is
just the options print and the overlay mount), leaves the world
unchanged, and returns the same merged root path. -/
theorem create_container_root_idempotent
    (image_name image_dir container_id container_dir : String)
    (w w1 : World) (tr1 : List Event) (p1 : String)
    (h : create_container_root image_name image_dir container_id container_dir w
          = (w1, tr1, Except.ok p1)) :
    create_container_root image_name image_dir container_id container_dir w1
      = (w1,
         [Event.print (overlayOptions image_name image_dir container_id container_dir),
          Event.mount (some "overlay") p1 (some "overlayfs") MS_NODEV
            (some (overlayOptions image_name image_dir container_id container_dir))],
         Except.ok p1) := by
  obtain ⟨hp, -, himg, hov, hroot, hup, hwork, hmerged⟩ := ccr_ok_facts _ _ _ _ _ _ _ _ h
  subst hp
  simp [create_container_root, overlayOptions, ensureDir_of_exists _ _ himg,
    ensureDir_of_exists _ _ hov, ensureDir_of_exists _ _ hroot,
    ensureDir_of_exists _ _ hup, ensureDir_of_exists _ _ hwork,
    ensureDir_of_exists _ _ hmerged, himg, hroot]

/-- C9: when the image archive is missing, `create_container_root` still
creates the overlay base directory `<containersDir>/overlay` (absent
here) before failing with the assertion error: the makedirs side effect
precedes the archive-existence check. -/
theorem missing_archive_still_creates_overlay_dir
    (image_name image_dir container_id container_dir : String) (w : World)
    (hov : pathExists w (osPathJoin container_dir "overlay") = false)
    (himg : pathExists w (_get_image_path image_name image_dir) = false)
    (hne : _get_image_path image_name image_dir ≠ osPathJoin container_dir "overlay") :
    create_container_root image_name image_dir container_id container_dir w
      = (addPath w (osPathJoin container_dir "overlay"),
         [Event.makedirs (osPathJoin container_dir "overlay")],
         Except.error ("unable to locate image " ++ image_name)) := by
  have h1 : ensureDir w (osPathJoin container_dir "overlay")
      = (addPath w (osPathJoin container_dir "overlay"),
         [Event.makedirs (osPathJoin container_dir "overlay")]) := by
    simp [ensureDir, hov]
  have h2 : pathExists (addPath w (osPathJoin container_dir "overlay"))
      (_get_image_path image_name image_dir) = false :=
    pathExists_addPath_false _ _ _ hne himg
  simp [create_container_root, h1, h2]

/-- C3: when the extraction directory does not yet exist, extraction
writes exactly the archive entries that are neither character devices
nor block devices: the single extractall of the call receives precisely
the filtered member list, device entries are dropped with no error (the
call still succeeds and returns the merged path), and no device node is
ever created from archive content. -/
theorem extraction_excludes_device_entries
    (image_name image_dir container_id container_dir : String) (w : World)
    (ms : List TarMember)
    (himg : pathExists w (_get_image_path image_name image_dir) = true)
    (hroot : pathExists w (osPathJoin (osPathJoin image_dir image_name) "rootfs") = false)
    (hne : osPathJoin (osPathJoin image_dir image_name) "rootfs"
            ≠ osPathJoin container_dir "overlay")
    (harch : w.archives.lookup (_get_image_path image_name image_dir) = some ms) :
    (create_container_root image_name image_dir container_id container_dir w).2.2
      = Except.ok (_get_container_path container_id
          (osPathJoin container_dir "overlay") ["merged"]) ∧
    Event.extractall (osPathJoin (osPathJoin image_dir image_name) "rootfs")
        (ms.filter keepMember)
      ∈ (create_container_root image_name image_dir container_id container_dir w).2.1 ∧
    (∀ m, m ∈ ms.filter keepMember
        ↔ m ∈ ms ∧ m.type ≠ TarType.chr ∧ m.type ≠ TarType.blk) ∧
    (∀ p ms', Event.extractall p ms'
        ∈ (create_container_root image_name image_dir container_id container_dir w).2.1
      → p = osPathJoin (osPathJoin image_dir image_name) "rootfs"
        ∧ ms' = ms.filter keepMember) ∧
    (∀ p mode dev, Event.mknod p mode dev
        ∉ (create_container_root image_name image_dir container_id container_dir w).2.1) := by
  have hfilter : ∀ m, m ∈ ms.filter keepMember
      ↔ m ∈ ms ∧ m.type ≠ TarType.chr ∧ m.type ≠ TarType.blk := by
    intro m
    simp [List.mem_filter, keepMember, and_assoc]
  have hmono : pathExists (ensureDir w (osPathJoin container_dir "overlay")).1
      (_get_image_path image_name image_dir) = true :=
    ensureDir_mono _ _ _ himg
  have hroot' : pathExists (ensureDir w (osPathJoin container_dir "overlay")).1
      (osPathJoin (osPathJoin image_dir image_name) "rootfs") = false := by
    unfold ensureDir
    split
    · exact hroot
    · exact pathExists_addPath_false _ _ _ hne hroot
  have harch' : (ensureDir w (osPathJoin container_dir "overlay")).1.archives.lookup
      (_get_image_path image_name image_dir) = some ms := by
    unfold ensureDir
    split
    · exact harch
    · exact harch
  refine ⟨?_, ?_, hfilter, ?_, ?_⟩ <;>
    simp [create_container_root, hmono, hroot', harch',
      extractall_not_mem_ensureDir, mknod_not_mem_ensureDir,
      List.mem_append]

/-- C5: every error raised inside the forked child before the final exec
is caught at the top of the child's containment attempt; its traceback
goes to standard error as the final output of the child, and the child
exits immediately (via the no-cleanup `os._exit`) with status 1. -/
theorem child_error_caught_exits_one (command : List String)
    (image_name image_dir container_id container_dir : String) (w : World) (e : String)
    (h : (contain command image_name image_dir container_id container_dir w).2.2
          = Except.error e) :
    run_child command image_name image_dir container_id container_dir w =
      ChildOutcome.exitedImmediately 1
        (contain command image_name image_dir container_id container_dir w).1
        ((contain command image_name image_dir container_id container_dir w).2.1
          ++ [Event.printExcStderr e]) := by
  unfold run_child
  rcases hc : contain command image_name image_dir container_id container_dir w with ⟨w1, tr, r⟩
  rw [hc] at h
  cases r with
  | ok u => simp at h
  | error e' =>
    simp only at h
    obtain rfl : e' = e := by simpa using h
    rfl

/-- C1: on every invocation of `contain` that reaches the exec, the nine
steps happen in exactly this order: unshare the mount namespace, remount
`/` private and recursive, build the layered root, populate it, create
`old_root` inside it, pivot_root, chdir to `/`, lazily detach
`/old_root` and remove its directory entry, and finally exec the target
command as the very last event. -/
theorem contain_nine_steps_in_order (command : List String)
    (image_name image_dir container_id container_dir : String) (w : World)
    (h : (contain command image_name image_dir container_id container_dir w).2.2
          = Except.ok ()) :
    ∃ w1 tr1 new_root file rest,
      command = file :: rest ∧
      create_container_root image_name image_dir container_id container_dir w
        = (w1, tr1, Except.ok new_root) ∧
      (contain command image_name image_dir container_id container_dir w).2.1
        = Event.unshare CLONE_NEWNS
            :: Event.mount none "/" none (MS_PRIVATE ||| MS_REC) none
            :: (tr1
          ++ Event.print ("Created a new root fs for our container: " ++ new_root)
            :: ((_create_mounts new_root w1).2
          ++ [Event.makedirs (osPathJoin new_root "old_root"),
              Event.pivot_root new_root (osPathJoin new_root "old_root"),
              Event.chdir "/",
              Event.umount2 "/old_root" MNT_DETACH,
              Event.rmdir "/old_root",
              Event.execvp file command])) := by
  rcases hccr : create_container_root image_name image_dir container_id container_dir w
    with ⟨w1, tr1, r1⟩
  cases r1 with
  | error e => simp [contain, hccr] at h
  | ok new_root =>
    by_cases hold : pathExists (_create_mounts new_root w1).1
        (osPathJoin new_root "old_root") = true
    · simp [contain, hccr, hold] at h
    · cases command with
      | nil => simp [contain, hccr, hold] at h
      | cons file rest =>
        by_cases hex : file ∈ (addPath (_create_mounts new_root w1).1
            (osPathJoin new_root "old_root")).executables
        · refine ⟨w1, tr1, new_root, file, rest, rfl, rfl, ?_⟩
          simp [contain, hccr, hold, hex, List.append_assoc]
        · simp [contain, hccr, hold, hex] at h

lemma makedev_explicit (p : String) :
    makedev p =
      [Event.symlink "/proc/self/fd/0" (osPathJoin p "stdin"),
       Event.symlink "/proc/self/fd/1" (osPathJoin p "stdout"),
       Event.symlink "/proc/self/fd/2" (osPathJoin p "stderr"),
       Event.symlink "/proc/self/fd" (osPathJoin p "fd"),
       Event.mknod (osPathJoin p "null") (0o666 ||| S_IFCHR) (os_makedev 1 3),
       Event.mknod (osPathJoin p "zero") (0o666 ||| S_IFCHR) (os_makedev 1 5),
       Event.mknod (osPathJoin p "random") (0o666 ||| S_IFCHR) (os_makedev 1 8),
       Event.mknod (osPathJoin p "urandom") (0o666 ||| S_IFCHR) (os_makedev 1 9),
       Event.mknod (osPathJoin p "console") (0o666 ||| S_IFCHR) (os_makedev 136 1),
       Event.mknod (osPathJoin p "tty") (0o666 ||| S_IFCHR) (os_makedev 5 0),
       Event.mknod (osPathJoin p "full") (0o666 ||| S_IFCHR) (os_makedev 1 7)] := rfl

/-- C7 amended: starting from a state where `root/dev/pts` does not yet
exist, the device population step performs exactly the proc, sysfs and
tmpfs mounts, creates and mounts `dev/pts`, and creates under `root/dev`
exactly twelve directory entries: the `pts` directory, the four symlinks
`stdin`, `stdout`, `stderr`, `fd`, and the seven character-device nodes
with their specified major/minor pairs. -/
theorem create_mounts_twelve_dev_entries (new_root : String) (w : World)
    (h : pathExists w (osPathJoin (osPathJoin new_root "dev") "pts") = false) :
    (_create_mounts new_root w).2 =
      [Event.mount (some "proc") (osPathJoin new_root "proc") (some "proc") 0 (some ""),
       Event.mount (some "sysfs") (osPathJoin new_root "sys") (some "sysfs") 0 (some ""),
       Event.mount (some "tmpfs") (osPathJoin new_root "dev") (some "tmpfs")
         (MS_NOSUID ||| MS_STRICTATIME) (some "mode=755"),
       Event.makedirs (osPathJoin (osPathJoin new_root "dev") "pts"),
       Event.mount (some "devpts") (osPathJoin (osPathJoin new_root "dev") "pts")
         (some "devpts") 0 (some "")]
        ++ makedev (osPathJoin new_root "dev") ∧
    createdUnder (osPathJoin new_root "dev") (_create_mounts new_root w).2 =
      [osPathJoin (osPathJoin new_root "dev") "pts",
       osPathJoin (osPathJoin new_root "dev") "stdin",
       osPathJoin (osPathJoin new_root "dev") "stdout",
       osPathJoin (osPathJoin new_root "dev") "stderr",
       osPathJoin (osPathJoin new_root "dev") "fd",
       osPathJoin (osPathJoin new_root "dev") "null",
       osPathJoin (osPathJoin new_root "dev") "zero",
       osPathJoin (osPathJoin new_root "dev") "random",
       osPathJoin (osPathJoin new_root "dev") "urandom",
       osPathJoin (osPathJoin new_root "dev") "console",
       osPathJoin (osPathJoin new_root "dev") "tty",
       osPathJoin (osPathJoin new_root "dev") "full"] := by
  constructor
  · simp [_create_mounts, h]
  · simp [createdUnder, _create_mounts, h, makedev_explicit, isUnder_join]

/-- Witness for C5 at a concrete input: with an empty world the child's
containment attempt fails on the missing image, and the child exits
immediately with status 1 after printing the traceback. -/
theorem child_error_caught_exits_one_witness :
    run_child ["/bin/true"] "ubuntu" "/img" "cid" "/ct" emptyWorld =
      ChildOutcome.exitedImmediately 1
        (contain ["/bin/true"] "ubuntu" "/img" "cid" "/ct" emptyWorld).1
        ((contain ["/bin/true"] "ubuntu" "/img" "cid" "/ct" emptyWorld).2.1
          ++ [Event.printExcStderr "unable to locate image ubuntu"]) :=
  child_error_caught_exits_one ["/bin/true"] "ubuntu" "/img" "cid" "/ct" emptyWorld
    "unable to locate image ubuntu" (by rfl)

/-- Witness for the amended C7 at a concrete input. -/
theorem create_mounts_twelve_dev_entries_witness :
    (_create_mounts "/r" emptyWorld).2 =
      [Event.mount (some "proc") (osPathJoin "/r" "proc") (some "proc") 0 (some ""),
       Event.mount (some "sysfs") (osPathJoin "/r" "sys") (some "sysfs") 0 (some ""),
       Event.mount (some "tmpfs") (osPathJoin "/r" "dev") (some "tmpfs")
         (MS_NOSUID ||| MS_STRICTATIME) (some "mode=755"),
       Event.makedirs (osPathJoin (osPathJoin "/r" "dev") "pts"),
       Event.mount (some "devpts") (osPathJoin (osPathJoin "/r" "dev") "pts")
         (some "devpts") 0 (some "")]
        ++ makedev (osPathJoin "/r" "dev") ∧
    createdUnder (osPathJoin "/r" "dev") (_create_mounts "/r" emptyWorld).2 =
      [osPathJoin (osPathJoin "/r" "dev") "pts",
       osPathJoin (osPathJoin "/r" "dev") "stdin",
       osPathJoin (osPathJoin "/r" "dev") "stdout",
       osPathJoin (osPathJoin "/r" "dev") "stderr",
       osPathJoin (osPathJoin "/r" "dev") "fd",
       osPathJoin (osPathJoin "/r" "dev") "null",
       osPathJoin (osPathJoin "/r" "dev") "zero",
       osPathJoin (osPathJoin "/r" "dev") "random",
       osPathJoin (osPathJoin "/r" "dev") "urandom",
       osPathJoin (osPathJoin "/r" "dev") "console",
       osPathJoin (osPathJoin "/r" "dev") "tty",
       osPathJoin (osPathJoin "/r" "dev") "full"] :=
  create_mounts_twelve_dev_entries "/r" emptyWorld (by rfl)

/-- Witness for C9 at a concrete input: missing archive, absent overlay
directory — the overlay directory is still created before the failure. -/
theorem missing_archive_still_creates_overlay_dir_witness :
    create_container_root "ubuntu" "/img" "cid" "/ct" emptyWorld
      = (addPath emptyWorld (osPathJoin "/ct" "overlay"),
         [Event.makedirs (osPathJoin "/ct" "overlay")],
         Except.error ("unable to locate image " ++ "ubuntu")) :=
  missing_archive_still_creates_overlay_dir "ubuntu" "/img" "cid" "/ct" emptyWorld
    (by rfl) (by rfl) (by decide)

/-- Witness for C1 at a concrete input on which `contain` reaches the
exec. -/
theorem contain_nine_steps_in_order_witness :
    ∃ w1 tr1 new_root file rest,
      ["/bin/true"] = file :: rest ∧
      create_container_root "ubuntu" "/img" "cid" "/ct" sampleWorld
        = (w1, tr1, Except.ok new_root) ∧
      (contain ["/bin/true"] "ubuntu" "/img" "cid" "/ct" sampleWorld).2.1
        = Event.unshare CLONE_NEWNS
            :: Event.mount none "/" none (MS_PRIVATE ||| MS_REC) none
            :: (tr1
          ++ Event.print ("Created a new root fs for our container: " ++ new_root)
            :: ((_create_mounts new_root w1).2
          ++ [Event.makedirs (osPathJoin new_root "old_root"),
              Event.pivot_root new_root (osPathJoin new_root "old_root"),
              Event.chdir "/",
              Event.umount2 "/old_root" MNT_DETACH,
              Event.rmdir "/old_root",
              Event.execvp file ["/bin/true"]])) :=
  contain_nine_steps_in_order ["/bin/true"] "ubuntu" "/img" "cid" "/ct" sampleWorld
    (by rfl)

/-- Witness for C2 at a concrete input. -/
theorem overlay_mount_exact_options_witness :
    "/ct/overlay/cid/merged" = "/ct" ++ "/overlay/" ++ "cid" ++ "/merged" ∧
    ∃ pre, (create_container_root "ubuntu" "/img" "cid" "/ct" sampleWorld).2.1 = pre ++
      [Event.print ("lowerdir=" ++ "/img" ++ "/" ++ "ubuntu"
          ++ "/rootfs,upperdir=" ++ "/ct" ++ "/overlay/" ++ "cid"
          ++ "/upper,workdir=" ++ "/ct" ++ "/overlay/" ++ "cid" ++ "/work"),
       Event.mount (some "overlay") "/ct/overlay/cid/merged" (some "overlayfs") MS_NODEV
         (some ("lowerdir=" ++ "/img" ++ "/" ++ "ubuntu"
          ++ "/rootfs,upperdir=" ++ "/ct" ++ "/overlay/" ++ "cid"
          ++ "/upper,workdir=" ++ "/ct" ++ "/overlay/" ++ "cid" ++ "/work"))] :=
  overlay_mount_exact_options "ubuntu" "/img" "cid" "/ct" sampleWorld
    (create_container_root "ubuntu" "/img" "cid" "/ct" sampleWorld).1
    (create_container_root "ubuntu" "/img" "cid" "/ct" sampleWorld).2.1
    "/ct/overlay/cid/merged" rfl

/-- Witness for C3 at a concrete input whose archive holds a block- and
a character-device entry. -/
theorem extraction_excludes_device_entries_witness :
    (create_container_root "ubuntu" "/img" "cid" "/ct" sampleWorld).2.2
      = Except.ok (_get_container_path "cid" (osPathJoin "/ct" "overlay") ["merged"]) ∧
    Event.extractall (osPathJoin (osPathJoin "/img" "ubuntu") "rootfs")
        ([⟨"bin", TarType.dir⟩, ⟨"bin/sh", TarType.reg⟩,
          ⟨"dev/sda", TarType.blk⟩, ⟨"dev/tty0", TarType.chr⟩].filter keepMember)
      ∈ (create_container_root "ubuntu" "/img" "cid" "/ct" sampleWorld).2.1 ∧
    (∀ m, m ∈ ([⟨"bin", TarType.dir⟩, ⟨"bin/sh", TarType.reg⟩,
          ⟨"dev/sda", TarType.blk⟩, ⟨"dev/tty0", TarType.chr⟩] : List TarMember).filter keepMember
        ↔ m ∈ ([⟨"bin", TarType.dir⟩, ⟨"bin/sh", TarType.reg⟩,
          ⟨"dev/sda", TarType.blk⟩, ⟨"dev/tty0", TarType.chr⟩] : List TarMember)
            ∧ m.type ≠ TarType.chr ∧ m.type ≠ TarType.blk) ∧
    (∀ p ms', Event.extractall p ms'
        ∈ (create_container_root "ubuntu" "/img" "cid" "/ct" sampleWorld).2.1
      → p = osPathJoin (osPathJoin "/img" "ubuntu") "rootfs"
        ∧ ms' = ([⟨"bin", TarType.dir⟩, ⟨"bin/sh", TarType.reg⟩,
            ⟨"dev/sda", TarType.blk⟩, ⟨"dev/tty0", TarType.chr⟩] : List TarMember).filter keepMember) ∧
    (∀ p mode dev, Event.mknod p mode dev
        ∉ (create_container_root "ubuntu" "/img" "cid" "/ct" sampleWorld).2.1) :=
  extraction_excludes_device_entries "ubuntu" "/img" "cid" "/ct" sampleWorld
    [⟨"bin", TarType.dir⟩, ⟨"bin/sh", TarType.reg⟩,
     ⟨"dev/sda", TarType.blk⟩, ⟨"dev/tty0", TarType.chr⟩]
    (by rfl) (by rfl) (by decide) (by rfl)

/-- Witness for C8 at a concrete input: the second call after a
successful first call only prints the options and mounts the overlay. -/
theorem create_container_root_idempotent_witness :
    create_container_root "ubuntu" "/img" "cid" "/ct"
        (create_container_root "ubuntu" "/img" "cid" "/ct" sampleWorld).1
      = ((create_container_root "ubuntu" "/img" "cid" "/ct" sampleWorld).1,
         [Event.print (overlayOptions "ubuntu" "/img" "cid" "/ct"),
          Event.mount (some "overlay") "/ct/overlay/cid/merged" (some "overlayfs") MS_NODEV
            (some (overlayOptions "ubuntu" "/img" "cid" "/ct"))],
         Except.ok "/ct/overlay/cid/merged") :=
  create_container_root_idempotent "ubuntu" "/img" "cid" "/ct" sampleWorld
    (create_container_root "ubuntu" "/img" "cid" "/ct" sampleWorld).1
    (create_container_root "ubuntu" "/img" "cid" "/ct" sampleWorld).2.1
    "/ct/overlay/cid/merged" rfl

end RubberDocker
